import Mathlib

/-!
Verification development for the claude-code-proxy repository.

The definitions below are a shallow embedding of the Python sources
src/core/config.py, src/core/model_manager.py and src/api/endpoints.py.
Python strings are Lean strings, Python None is Option.none, Python
exceptions are Except errors, and machine-level details (logging
transport, HTTP framing) are modelled as explicit data.
-/

namespace ClaudeProxy

/-- Python truthiness of a string: only the empty string is falsy. -/
def pyTruthyStr (s : String) : Bool := s ≠ ""

/-- Python truthiness of an optional string: None and the empty string are falsy. -/
def pyTruthyOpt : Option String → Bool
  | none => false
  | some s => s ≠ ""

/-- Embedding of the Python test s.strip() == "" (true also for the empty
string): every character is whitespace. -/
def isBlank (s : String) : Bool := s.data.all Char.isWhitespace

/-- Embedding of Python s.startswith(pat). -/
def startsWith (s pat : String) : Bool := pat.data.isPrefixOf s.data

/-- Embedding of Python s.lower(), character by character. -/
def pyLower (s : String) : String := ⟨s.data.map Char.toLower⟩

/-- Helper for substring search: does pat occur as a contiguous run inside l? -/
def infChk : List Char → List Char → Bool
  | pat, [] => pat.isEmpty
  | pat, c :: rest => pat.isPrefixOf (c :: rest) || infChk pat rest

/-- Embedding of Python (pat in s): substring containment. -/
def containsSub (s pat : String) : Bool := infChk pat.data s.data

/-- Embedding of Python s.replace(pat, repl) on character lists: replaces every
non-overlapping occurrence, scanning left to right. (Used only with the
non-empty pattern "Bearer "; an empty pattern is treated as no occurrence.) -/
def replaceList (pat repl : List Char) : List Char → List Char
  | [] => []
  | c :: rest =>
    if pat.isPrefixOf (c :: rest) && !pat.isEmpty then
      repl ++ replaceList pat repl (rest.drop (pat.length - 1))
    else
      c :: replaceList pat repl rest
termination_by l => l.length
decreasing_by
  all_goals simp [List.length_drop]
  omega

/-- Embedding of Python s.replace(pat, repl). -/
def strReplace (s pat repl : String) : String := ⟨replaceList pat.data repl.data s.data⟩

/-- The slice of the configuration state (src/core/config.py, class Config)
that the verified endpoints read. Remaining Config fields (host, port,
log level, token limits, retry count) are not consulted by the code under
verification and are omitted from the projection. -/
structure Config where
  openai_api_key : Option String
  anthropic_api_key : Option String
  openai_base_url : String
  azure_api_version : Option String
  request_timeout : Nat
  big_model : Option String
  middle_model : Option String
  small_model : Option String
deriving DecidableEq

/-- Embedding of Config._get_env_value: the raw environment value (None when
the variable is unset), with a blank value replaced by the default. -/
def getEnvValue (raw deflt : Option String) : Option String :=
  let value := match raw with
    | some s => some s
    | none => deflt
  match value with
  | some s => if isBlank s then deflt else some s
  | none => none

/-- The raw environment variables read by Config.__init__ that matter to the
verified claims. A field is none when the variable is unset; a set variable
carries its literal string value. -/
structure ModelEnv where
  openai_api_key : Option String
  anthropic_api_key : Option String
  openai_base_url : Option String
  azure_api_version : Option String
  big_model : Option String
  middle_model : Option String
  small_model : Option String
deriving DecidableEq

/-- Embedding of Config.__init__ for the projected fields. Note that
MIDDLE_MODEL is loaded with the already-loaded big_model as its default
(config.py line 51). request_timeout stands for the result of
_safe_int_convert(REQUEST_TIMEOUT, 300); numeric parsing is not
claim-relevant and is passed through. -/
def Config.ofEnv (e : ModelEnv) (request_timeout : Nat) : Config :=
  let bigm := getEnvValue e.big_model none
  { openai_api_key := getEnvValue e.openai_api_key none
    anthropic_api_key := getEnvValue e.anthropic_api_key none
    openai_base_url := (getEnvValue e.openai_base_url (some "https://api.openai.com/v1")).getD "https://api.openai.com/v1"
    azure_api_version := getEnvValue e.azure_api_version none
    request_timeout := request_timeout
    big_model := bigm
    middle_model := getEnvValue e.middle_model bigm
    small_model := getEnvValue e.small_model none }

/-- Embedding of Config.validate_client_api_key. -/
def Config.validate_client_api_key (cfg : Config) (client_api_key : Option String) : Bool :=
  if !pyTruthyOpt cfg.anthropic_api_key then true
  else client_api_key == cfg.anthropic_api_key

/-- Log events emitted by the embedded code paths. -/
inductive LogEvent
  | warning (msg : String)
  | info (msg : String)
  | error (msg : String)
deriving DecidableEq

/-- Python (a or b) for an optional string a and string b: a unless a is falsy. -/
def pyOrStr (a : Option String) (b : String) : String :=
  match a with
  | none => b
  | some s => if s = "" then b else s

/-- ModelManager.default_model (model_manager.py line 10). -/
def default_model : String := "gpt-4o"

/-- One tier branch of map_claude_model_to_openai: if the tier override is
None or blank, log and pass the client model through, else return the
override (model_manager.py lines 34-62, repeated per tier). -/
def tierOrClient (override : Option String) (claude_model : String) (msg : String) :
    String × List LogEvent :=
  match override with
  | none => (claude_model, [.info msg])
  | some s => if isBlank s then (claude_model, [.info msg]) else (s, [])

/-- Embedding of ModelManager.map_claude_model_to_openai together with the
log records it emits (model_manager.py lines 13-62). -/
def map_claude_model_to_openai_log (cfg : Config) (claude_model : String) :
    String × List LogEvent :=
  if claude_model == "" || isBlank claude_model then
    (pyOrStr cfg.big_model default_model,
      [.warning "Empty model name received from client, using default model"])
  else if startsWith claude_model "gpt-" || startsWith claude_model "o1-" then
    (claude_model, [])
  else if startsWith claude_model "ep-" || startsWith claude_model "doubao-" ||
      startsWith claude_model "deepseek-" then
    (claude_model, [])
  else
    let model_lower := pyLower claude_model
    if containsSub model_lower "haiku" then
      tierOrClient cfg.small_model claude_model
        ("No small_model configured, using client model: " ++ claude_model)
    else if containsSub model_lower "sonnet" then
      tierOrClient cfg.middle_model claude_model
        ("No middle_model configured, using client model: " ++ claude_model)
    else if containsSub model_lower "opus" then
      tierOrClient cfg.big_model claude_model
        ("No big_model configured, using client model: " ++ claude_model)
    else
      tierOrClient cfg.big_model claude_model
        ("No big_model configured for unknown model type, using client model: " ++ claude_model)

/-- The value returned by ModelManager.map_claude_model_to_openai. -/
def map_claude_model_to_openai (cfg : Config) (claude_model : String) : String :=
  (map_claude_model_to_openai_log cfg claude_model).1

/-- A raised fastapi.HTTPException: status code and detail string. -/
structure HTTPError where
  status : Nat
  detail : String
deriving DecidableEq

/-- The 401 raised by validate_api_key (endpoints.py lines 45-48). -/
def invalidKeyErr : HTTPError :=
  ⟨401, "Invalid API key. Please provide a valid Anthropic API key."⟩

/-- The 401 raised by get_openai_client (endpoints.py lines 69-72). -/
def noUpstreamKeyErr : HTTPError :=
  ⟨401, "No OpenAI API key provided. Please provide a valid OpenAI API key in the Authorization header."⟩

/-- The client-key extraction of validate_api_key (endpoints.py lines 30-36):
the x-api-key header when truthy, otherwise the Authorization header with
every occurrence of "Bearer " replaced by the empty string, provided the
header is truthy and starts with "Bearer ". -/
def extract_client_key (x_api_key authorization : Option String) : Option String :=
  if pyTruthyOpt x_api_key then x_api_key
  else
    match authorization with
    | some a =>
      if pyTruthyStr a && startsWith a "Bearer " then some (strReplace a "Bearer " "")
      else none
    | none => none

/-- Embedding of validate_api_key (endpoints.py lines 28-50): extraction, then
validation against the configured ANTHROPIC_API_KEY shared secret when one
is set; .error is a raised HTTPException. -/
def validate_api_key (cfg : Config) (x_api_key authorization : Option String) :
    Except HTTPError (Option String) :=
  let client_api_key := extract_client_key x_api_key authorization
  if !pyTruthyOpt cfg.anthropic_api_key then .ok client_api_key
  else if !pyTruthyOpt client_api_key || !cfg.validate_client_api_key client_api_key then
    .error invalidKeyErr
  else .ok client_api_key

/-- The constructor arguments of an OpenAIClient instance (src/core/client.py
is not part of the verified sources; the endpoints only construct such
values and hand them to the transport collaborator). -/
structure OpenAIClient where
  api_key : Option String
  base_url : String
  timeout : Nat
  api_version : Option String
deriving DecidableEq

/-- The module-level shared default client (endpoints.py lines 21-26), built
from the configured upstream key. -/
def defaultClient (cfg : Config) : OpenAIClient :=
  ⟨cfg.openai_api_key, cfg.openai_base_url, cfg.request_timeout, cfg.azure_api_version⟩

/-- Embedding of get_openai_client (endpoints.py lines 52-74): a fresh client
for an sk- prefixed client key, else the shared default client when an
upstream key is configured, else a raised 401. -/
def get_openai_client (cfg : Config) (client_api_key : Option String) :
    Except HTTPError OpenAIClient :=
  match client_api_key with
  | some k =>
    if pyTruthyStr k && startsWith k "sk-" then
      .ok ⟨some k, cfg.openai_base_url, cfg.request_timeout, cfg.azure_api_version⟩
    else if pyTruthyOpt cfg.openai_api_key then .ok (defaultClient cfg)
    else .error noUpstreamKeyErr
  | none =>
    if pyTruthyOpt cfg.openai_api_key then .ok (defaultClient cfg)
    else .error noUpstreamKeyErr

/-- A Python exception as seen by the create_message handler: either an
HTTPException or any other exception carrying its message. -/
inductive PyExc
  | http (e : HTTPError)
  | other (msg : String)
deriving DecidableEq

/-- The response values a handler can produce: a streaming response, a JSON
error body for streaming setup failures, or a converted non-streaming
Claude response (payloads are opaque to the verified control flow). -/
inductive Response
  | streaming
  | jsonError (status : Nat) (errType message : String)
  | claude (payload : String)
deriving DecidableEq

/-- The collaborators create_message calls into whose code lives outside the
verified sources (request/response converters in src/conversion, the
transport client in src/core/client.py). Each is an arbitrary function or
outcome, so the theorems below hold for every behaviour of theirs. -/
structure Collab where
  convert : Except PyExc String
  upstream : OpenAIClient → String → Except PyExc String
  upstreamStream : OpenAIClient → String → Except PyExc String
  convertResp : String → Except PyExc String
  classify : String → String

/-- The body of the create_message try block (endpoints.py lines 78-142),
with the Boolean recording whether the transport collaborator was ever
invoked (i.e. whether an upstream call was attempted). The inner
try/except around the streaming branch converts an HTTPException into a
JSONResponse with the same status and a classified message. -/
def create_message_body (cfg : Config) (client_api_key : Option String)
    (disconnected stream : Bool) (co : Collab) : Except PyExc Response × Bool :=
  match get_openai_client cfg client_api_key with
  | .error e => (.error (.http e), false)
  | .ok current_client =>
    match co.convert with
    | .error exc => (.error exc, false)
    | .ok openai_request =>
      if disconnected then (.error (.http ⟨499, "Client disconnected"⟩), false)
      else if stream then
        match co.upstreamStream current_client openai_request with
        | .ok _ => (.ok .streaming, true)
        | .error (.http e) =>
          (.ok (.jsonError e.status "api_error" (co.classify e.detail)), true)
        | .error (.other m) => (.error (.other m), true)
      else
        match co.upstream current_client openai_request with
        | .error exc => (.error exc, true)
        | .ok openai_response =>
          match co.convertResp openai_response with
          | .error exc => (.error exc, true)
          | .ok claude_response => (.ok (.claude claude_response), true)

/-- The outermost exception boundary of create_message (endpoints.py lines
143-151): an HTTPException is re-raised unchanged; any other exception is
logged and re-raised as a 500 whose detail is the classified message. -/
def handle_request_boundary (classify : String → String)
    (body : Except PyExc Response) : Except HTTPError Response × List LogEvent :=
  match body with
  | .ok r => (.ok r, [])
  | .error (.http e) => (.error e, [])
  | .error (.other m) =>
    (.error ⟨500, classify m⟩, [.error ("Unexpected error processing request: " ++ m)])

/-- The full /v1/messages pipeline: the validate_api_key dependency runs
first (its HTTPException bypasses the handler body entirely), then the
handler body wrapped in the exception boundary. The Boolean records
whether an upstream call was attempted. -/
def create_message (cfg : Config) (x_api_key authorization : Option String)
    (disconnected stream : Bool) (co : Collab) : Except HTTPError Response × Bool :=
  match validate_api_key cfg x_api_key authorization with
  | .error e => (.error e, false)
  | .ok client_api_key =>
    let (body, called) := create_message_body cfg client_api_key disconnected stream co
    ((handle_request_boundary co.classify body).1, called)

/-- Modelled from the spec: the content blocks of the request models in
src/models/claude.py, which is not among the verified sources. Spec section 3
describes ContentBlock as a tagged variant over text and non-text kinds;
only the text variant carries a text attribute (the duck-typed
hasattr(block, "text") test in count_tokens is true exactly for it). -/
inductive ContentBlock
  | text (t : String)
  | other
deriving DecidableEq

/-- Modelled from the spec: a message of a token-count request, whose content
is absent, a plain string, or a list of content blocks (spec section 3,
Message). -/
structure CMessage where
  content : Option (String ⊕ List ContentBlock)
deriving DecidableEq

/-- Modelled from the spec: a ClaudeTokenCountRequest, carrying an optional
system prompt (plain text or block list) and a message list (spec
section 3, ChatRequest fields read by count_tokens). -/
structure TokenCountRequest where
  system : Option (String ⊕ List ContentBlock)
  messages : List CMessage
deriving DecidableEq

/-- The response body of count_tokens. -/
structure TokenCountResult where
  input_tokens : Nat
deriving DecidableEq

/-- Python truthiness of the system field value: a non-empty string or a
non-empty list. -/
def sysTruthy : String ⊕ List ContentBlock → Bool
  | .inl s => s ≠ ""
  | .inr bs => !bs.isEmpty

/-- The character-accumulation loop over a block list in count_tokens
(endpoints.py lines 166-169 and 177-180): only blocks with a text
attribute contribute, by the length of their text. -/
def blocksChars : List ContentBlock → Nat
  | [] => 0
  | .text t :: rest => t.length + blocksChars rest
  | .other :: rest => blocksChars rest

/-- The system-prompt contribution in count_tokens (endpoints.py lines
162-169), guarded by Python truthiness of request.system. -/
def systemChars (sys : Option (String ⊕ List ContentBlock)) : Nat :=
  match sys with
  | none => 0
  | some sv =>
    if sysTruthy sv then
      match sv with
      | .inl s => s.length
      | .inr bs => blocksChars bs
    else 0

/-- The contribution of one message in count_tokens (endpoints.py lines 172-180). -/
def messageChars (m : CMessage) : Nat :=
  match m.content with
  | none => 0
  | some (.inl s) => s.length
  | some (.inr bs) => blocksChars bs

/-- The total character count accumulated by count_tokens. -/
def totalRequestChars (req : TokenCountRequest) : Nat :=
  List.foldl (fun acc m => acc + messageChars m) (systemChars req.system) req.messages

/-- Embedding of the count_tokens endpoint (endpoints.py lines 154-185):
max(1, total_chars // 4). -/
def count_tokens_endpoint (req : TokenCountRequest) : TokenCountResult :=
  ⟨max 1 (totalRequestChars req / 4)⟩

/-- Stated from the words of the claim, for comparison with the embedded
count_tokens: the text length of a block list as a plain sum. -/
def claimBlockChars (b : ContentBlock) : Nat :=
  match b with
  | .text t => t.length
  | .other => 0

/-- Stated from the words of the claim: the character count of the system prompt
(string form, or text-bearing blocks of the list form). -/
def claimSystemChars : Option (String ⊕ List ContentBlock) → Nat
  | none => 0
  | some (.inl s) => s.length
  | some (.inr bs) => (bs.map claimBlockChars).sum

/-- Stated from the words of the claim: the character count of one message. -/
def claimMessageChars (m : CMessage) : Nat :=
  match m.content with
  | none => 0
  | some (.inl s) => s.length
  | some (.inr bs) => (bs.map claimBlockChars).sum

/-- Stated from the words of the claim: the total character count C of a request. -/
def claimTotalChars (req : TokenCountRequest) : Nat :=
  claimSystemChars req.system + (req.messages.map claimMessageChars).sum

/-- Raw environment value that is unset or blank; under Config loading this
is exactly the condition for the corresponding override to load as None. -/
def envUnsetOrBlank : Option String → Bool
  | none => true
  | some s => isBlank s

/-- The get_openai_client guard for using the client-supplied key: truthy and
sk- prefixed (endpoints.py line 55). -/
def skSelected : Option String → Bool
  | none => false
  | some s => pyTruthyStr s && startsWith s "sk-"

/-- Fixture: an environment with BIG_MODEL set and MIDDLE_MODEL, SMALL_MODEL unset. -/
def envBigOnly : ModelEnv := ⟨none, none, none, none, some "big-model-x", none, none⟩

/-- Fixture: an environment with every variable unset. -/
def envAllUnset : ModelEnv := ⟨none, none, none, none, none, none, none⟩

/-- Fixture: a configuration whose only override is the small tier. -/
def cfgSmallFast : Config :=
  { openai_api_key := none, anthropic_api_key := none,
    openai_base_url := "https://api.openai.com/v1", azure_api_version := none,
    request_timeout := 300, big_model := none, middle_model := none,
    small_model := some "fast-model" }

/-- Fixture: a configuration whose only override is the large tier. -/
def cfgBigOnly : Config :=
  { openai_api_key := none, anthropic_api_key := none,
    openai_base_url := "https://api.openai.com/v1", azure_api_version := none,
    request_timeout := 300, big_model := some "big-m", middle_model := none,
    small_model := none }

/-- Fixture: a configuration with a client shared secret set. -/
def cfgSecret : Config :=
  { openai_api_key := some "sk-upstream", anthropic_api_key := some "secret-1",
    openai_base_url := "https://api.openai.com/v1", azure_api_version := none,
    request_timeout := 300, big_model := none, middle_model := none,
    small_model := none }

/-- Fixture: a configuration with no upstream key and no shared secret. -/
def cfgNoUpstream : Config :=
  { openai_api_key := none, anthropic_api_key := none,
    openai_base_url := "https://api.openai.com/v1", azure_api_version := none,
    request_timeout := 300, big_model := none, middle_model := none,
    small_model := none }

/-- Fixture: collaborators that always succeed and classify by identity. -/
def coTriv : Collab :=
  { convert := .ok "", upstream := fun _ _ => .ok "",
    upstreamStream := fun _ _ => .ok "", convertResp := fun _ => .ok "",
    classify := fun s => s }

/-- A string headed by a non-whitespace character is not blank. -/
theorem not_blank_of_head (s : String) (c : Char) (cs : List Char)
    (hc : c.isWhitespace = false) (h : List.isPrefixOf (c :: cs) s.data = true) :
    isBlank s = false := by
  unfold isBlank
  cases hd : s.data with
  | nil => rw [hd] at h; simp [List.isPrefixOf] at h
  | cons b bs =>
    rw [hd] at h
    simp [List.isPrefixOf] at h
    obtain ⟨hcb, _⟩ := h
    simp [List.all_cons, ← hcb, hc]

/-- A non-blank string is non-empty. -/
theorem ne_empty_of_not_blank (s : String) (h : isBlank s = false) : s ≠ "" := by
  intro he
  rw [he] at h
  exact absurd h (by decide)

/-- Boolean form of non-emptiness for a non-blank string. -/
theorem beq_empty_false_of_not_blank (s : String) (h : isBlank s = false) :
    (s == "") = false := by
  cases hb : s == "" with
  | false => rfl
  | true => exact absurd (eq_of_beq hb) (ne_empty_of_not_blank s h)

/-- A non-blank string has positive length. -/
theorem length_pos_of_not_blank (s : String) (h : isBlank s = false) : 0 < s.length := by
  unfold isBlank at h
  cases hd : s.data with
  | nil => rw [hd] at h; simp at h
  | cons b bs =>
    have : s.length = bs.length + 1 := by simp [String.length, hd]
    omega

/-- Any some value produced by getEnvValue is non-blank, provided the default
already satisfies that invariant. -/
theorem getEnvValue_not_blank (raw d : Option String)
    (hd : ∀ t, d = some t → isBlank t = false) :
    ∀ s, getEnvValue raw d = some s → isBlank s = false := by
  intro s h
  unfold getEnvValue at h
  cases raw with
  | none =>
    cases hdd : d with
    | none => rw [hdd] at h; simp at h
    | some t =>
      have ht := hd t hdd
      rw [hdd] at h
      simp [ht] at h
      rw [← h]
      exact ht
  | some a =>
    by_cases hba : isBlank a = true
    · simp [hba] at h
      exact hd s h
    · have hba2 : isBlank a = false := by
        cases hx : isBlank a with
        | false => rfl
        | true => exact absurd hx hba
      simp [hba2] at h
      rw [← h]
      exact hba2

/-- A getEnvValue with an unset-or-blank raw value and a None default loads
as None. -/
theorem getEnvValue_eq_none (raw d : Option String)
    (hr : envUnsetOrBlank raw = true) (hd : d = none) : getEnvValue raw d = none := by
  subst hd
  cases raw with
  | none => rfl
  | some a =>
    have : isBlank a = true := by simpa [envUnsetOrBlank] using hr
    simp [getEnvValue, this]

/-- Once a non-blank, non-passthrough model name reaches the tier ladder, the
router output is determined by the keyword containment tests in order. -/
theorem map_log_nonblank (cfg : Config) (m : String) (hb : isBlank m = false)
    (h1 : startsWith m "gpt-" = false) (h2 : startsWith m "o1-" = false)
    (h3 : startsWith m "ep-" = false) (h4 : startsWith m "doubao-" = false)
    (h5 : startsWith m "deepseek-" = false) :
    map_claude_model_to_openai_log cfg m =
      if containsSub (pyLower m) "haiku" then
        tierOrClient cfg.small_model m ("No small_model configured, using client model: " ++ m)
      else if containsSub (pyLower m) "sonnet" then
        tierOrClient cfg.middle_model m ("No middle_model configured, using client model: " ++ m)
      else if containsSub (pyLower m) "opus" then
        tierOrClient cfg.big_model m ("No big_model configured, using client model: " ++ m)
      else
        tierOrClient cfg.big_model m
          ("No big_model configured for unknown model type, using client model: " ++ m) := by
  have hne := beq_empty_false_of_not_blank m hb
  unfold map_claude_model_to_openai_log
  simp [hne, hb, h1, h2, h3, h4, h5]

/-- Reduction of a tier branch when the override is a non-blank value. -/
theorem tierOrClient_some (s m msg : String) (h : isBlank s = false) :
    tierOrClient (some s) m msg = (s, []) := by
  simp [tierOrClient, h]

/-- C3. For every blank (empty or all-whitespace) requested model name, the
router logs exactly the empty-model warning and returns the configured
big_model when that is a non-empty string, and the built-in default
"gpt-4o" when no big_model is configured. The embedded router is a total
function, so it cannot fail on blank input. -/
theorem c3_blank_model_default (cfg : Config) (m : String) (hb : isBlank m = true) :
    (map_claude_model_to_openai_log cfg m).2 =
      [.warning "Empty model name received from client, using default model"] ∧
    (∀ s, cfg.big_model = some s → s ≠ "" → map_claude_model_to_openai cfg m = s) ∧
    (cfg.big_model = none → map_claude_model_to_openai cfg m = "gpt-4o") := by
  refine ⟨?_, ?_, ?_⟩
  · unfold map_claude_model_to_openai_log
    simp [hb]
  · intro s hs hne
    unfold map_claude_model_to_openai map_claude_model_to_openai_log
    simp [hb, hs, pyOrStr, hne]
  · intro hn
    unfold map_claude_model_to_openai map_claude_model_to_openai_log
    simp [hb, hn, pyOrStr, default_model]

/-- C3 witness: an all-whitespace model name resolves to the configured
big_model. -/
theorem c3_witness : map_claude_model_to_openai cfgBigOnly "   " = "big-m" :=
  (c3_blank_model_default cfgBigOnly "   " (by decide)).2.1 "big-m" rfl (by decide)

/-- C4. A requested model name starting with gpt-, o1-, ep-, doubao- or
deepseek- is passed through unchanged by the router, for every
configuration state and whatever tier keywords the name also contains:
the passthrough tests run before the keyword ladder, first match wins. -/
theorem c4_passthrough_prefixes (cfg : Config) (m : String)
    (h : (startsWith m "gpt-" || startsWith m "o1-" || startsWith m "ep-" ||
          startsWith m "doubao-" || startsWith m "deepseek-") = true) :
    map_claude_model_to_openai cfg m = m := by
  simp only [Bool.or_eq_true] at h
  have hb : isBlank m = false := by
    rcases h with ((((hp | hp) | hp) | hp) | hp)
    · exact not_blank_of_head m 'g' ['p', 't', '-'] (by decide) hp
    · exact not_blank_of_head m 'o' ['1', '-'] (by decide) hp
    · exact not_blank_of_head m 'e' ['p', '-'] (by decide) hp
    · exact not_blank_of_head m 'd' ['o', 'u', 'b', 'a', 'o', '-'] (by decide) hp
    · exact not_blank_of_head m 'd' ['e', 'e', 'p', 's', 'e', 'e', 'k', '-'] (by decide) hp
  have hne := beq_empty_false_of_not_blank m hb
  unfold map_claude_model_to_openai map_claude_model_to_openai_log
  simp only [hne, hb, Bool.or_false, Bool.false_eq_true, if_false]
  by_cases hA : (startsWith m "gpt-" || startsWith m "o1-") = true
  · simp [hA]
  · have hA2 : (startsWith m "gpt-" || startsWith m "o1-") = false := by
      cases hx : (startsWith m "gpt-" || startsWith m "o1-") with
      | false => rfl
      | true => exact absurd hx hA
    have hB : (startsWith m "ep-" || startsWith m "doubao-" ||
        startsWith m "deepseek-") = true := by
      simp only [Bool.or_eq_true] at hA ⊢
      rcases h with ((((hp | hp) | hp) | hp) | hp)
      · exact absurd (Or.inl hp) hA
      · exact absurd (Or.inr hp) hA
      · exact Or.inl (Or.inl hp)
      · exact Or.inl (Or.inr hp)
      · exact Or.inr hp
    simp [hA2, hB]

/-- C4 witness: a gpt- prefixed name passes through even with overrides set. -/
theorem c4_witness : map_claude_model_to_openai cfgSmallFast "gpt-4o" = "gpt-4o" :=
  c4_passthrough_prefixes cfgSmallFast "gpt-4o" (by decide)

/-- C1. For a non-blank requested name without a passthrough prefix, the
router resolves by keyword containment in the lower-cased name, clauses
taken in the first-match order of the source (haiku, then sonnet, then
opus, then the no-keyword default): each clause returns the corresponding
configured model whenever that override is set to a non-blank value. -/
theorem c1_tier_keyword_resolution (cfg : Config) (m : String)
    (hb : isBlank m = false)
    (h1 : startsWith m "gpt-" = false) (h2 : startsWith m "o1-" = false)
    (h3 : startsWith m "ep-" = false) (h4 : startsWith m "doubao-" = false)
    (h5 : startsWith m "deepseek-" = false) :
    (∀ s, containsSub (pyLower m) "haiku" = true → cfg.small_model = some s →
      isBlank s = false → map_claude_model_to_openai cfg m = s) ∧
    (∀ s, containsSub (pyLower m) "haiku" = false →
      containsSub (pyLower m) "sonnet" = true → cfg.middle_model = some s →
      isBlank s = false → map_claude_model_to_openai cfg m = s) ∧
    (∀ s, containsSub (pyLower m) "haiku" = false →
      containsSub (pyLower m) "sonnet" = false →
      containsSub (pyLower m) "opus" = true → cfg.big_model = some s →
      isBlank s = false → map_claude_model_to_openai cfg m = s) ∧
    (∀ s, containsSub (pyLower m) "haiku" = false →
      containsSub (pyLower m) "sonnet" = false →
      containsSub (pyLower m) "opus" = false → cfg.big_model = some s →
      isBlank s = false → map_claude_model_to_openai cfg m = s) := by
  have hml := map_log_nonblank cfg m hb h1 h2 h3 h4 h5
  refine ⟨?_, ?_, ?_, ?_⟩
  · intro s hk hcfg hsb
    unfold map_claude_model_to_openai
    rw [hml]
    simp [hk, hcfg, tierOrClient_some s m _ hsb]
  · intro s hk hsn hcfg hsb
    unfold map_claude_model_to_openai
    rw [hml]
    simp [hk, hsn, hcfg, tierOrClient_some s m _ hsb]
  · intro s hk hsn hop hcfg hsb
    unfold map_claude_model_to_openai
    rw [hml]
    simp [hk, hsn, hop, hcfg, tierOrClient_some s m _ hsb]
  · intro s hk hsn hop hcfg hsb
    unfold map_claude_model_to_openai
    rw [hml]
    simp [hk, hsn, hop, hcfg, tierOrClient_some s m _ hsb]

/-- C1 witness: the spec scenario, claude-3-haiku with the small tier
configured to fast-model resolves to fast-model. -/
theorem c1_witness : map_claude_model_to_openai cfgSmallFast "claude-3-haiku" = "fast-model" :=
  (c1_tier_keyword_resolution cfgSmallFast "claude-3-haiku" (by decide) (by decide)
    (by decide) (by decide) (by decide) (by decide)).1 "fast-model" (by decide) rfl (by decide)

/-- C2 counterexample: with MIDDLE_MODEL unset and BIG_MODEL set to
big-model-x, the loaded middle_model defaults to big-model-x (config.py
line 51), so resolving claude-sonnet does not return the original name,
contradicting the claim that an unset MIDDLE_MODEL gives passthrough. -/
theorem c2_counterexample :
    map_claude_model_to_openai (Config.ofEnv envBigOnly 300) "claude-sonnet" ≠
      "claude-sonnet" := by decide

/-- C2 as amended. For a non-blank, non-passthrough name, keyword clauses in
first-match order: a haiku name passes through when SMALL_MODEL is unset
or blank; a sonnet name passes through when MIDDLE_MODEL and BIG_MODEL are
both unset or blank (MIDDLE_MODEL defaults to the loaded BIG_MODEL); an
opus name passes through when BIG_MODEL is unset or blank. -/
theorem c2_passthrough_when_env_unset (e : ModelEnv) (t : Nat) (m : String)
    (hb : isBlank m = false)
    (h1 : startsWith m "gpt-" = false) (h2 : startsWith m "o1-" = false)
    (h3 : startsWith m "ep-" = false) (h4 : startsWith m "doubao-" = false)
    (h5 : startsWith m "deepseek-" = false) :
    (containsSub (pyLower m) "haiku" = true → envUnsetOrBlank e.small_model = true →
      map_claude_model_to_openai (Config.ofEnv e t) m = m) ∧
    (containsSub (pyLower m) "haiku" = false →
      containsSub (pyLower m) "sonnet" = true →
      envUnsetOrBlank e.middle_model = true → envUnsetOrBlank e.big_model = true →
      map_claude_model_to_openai (Config.ofEnv e t) m = m) ∧
    (containsSub (pyLower m) "haiku" = false →
      containsSub (pyLower m) "sonnet" = false →
      containsSub (pyLower m) "opus" = true → envUnsetOrBlank e.big_model = true →
      map_claude_model_to_openai (Config.ofEnv e t) m = m) := by
  have hml := map_log_nonblank (Config.ofEnv e t) m hb h1 h2 h3 h4 h5
  refine ⟨?_, ?_, ?_⟩
  · intro hk hs
    have hnone : (Config.ofEnv e t).small_model = none :=
      getEnvValue_eq_none e.small_model none hs rfl
    unfold map_claude_model_to_openai
    rw [hml]
    simp [hk, hnone, tierOrClient]
  · intro hk hsn hmid hbig
    have hbnone : getEnvValue e.big_model none = none :=
      getEnvValue_eq_none e.big_model none hbig rfl
    have hnone : (Config.ofEnv e t).middle_model = none := by
      show getEnvValue e.middle_model (getEnvValue e.big_model none) = none
      rw [hbnone]
      exact getEnvValue_eq_none e.middle_model none hmid rfl
    unfold map_claude_model_to_openai
    rw [hml]
    simp [hk, hsn, hnone, tierOrClient]
  · intro hk hsn hop hbig
    have hnone : (Config.ofEnv e t).big_model = none :=
      getEnvValue_eq_none e.big_model none hbig rfl
    unfold map_claude_model_to_openai
    rw [hml]
    simp [hk, hsn, hop, hnone, tierOrClient]

/-- C2 witness: claude-haiku-x with no small-tier override configured
resolves to the original string unchanged. -/
theorem c2_witness :
    map_claude_model_to_openai (Config.ofEnv envAllUnset 300) "claude-haiku-x" =
      "claude-haiku-x" :=
  (c2_passthrough_when_env_unset envAllUnset 300 "claude-haiku-x" (by decide) (by decide)
    (by decide) (by decide) (by decide) (by decide)).1 (by decide) (by decide)

/-- Positive length of either component of a tier branch, given a non-blank
client model and a non-blank-or-None override. -/
theorem tierOrClient_length_pos (o : Option String) (m msg : String)
    (hm : isBlank m = false) (ho : ∀ s, o = some s → isBlank s = false) :
    0 < (tierOrClient o m msg).1.length := by
  cases o with
  | none => exact length_pos_of_not_blank m hm
  | some s =>
    have hs := ho s rfl
    rw [tierOrClient_some s m msg hs]
    exact length_pos_of_not_blank s hs

/-- C5. For every requested model string and every configuration produced by
the Config loader, the router returns a non-empty model name. The embedded
router is a total function of its inputs, so it returns a string and
cannot raise for any input. -/
theorem c5_resolve_total_nonempty (e : ModelEnv) (t : Nat) (m : String) :
    0 < (map_claude_model_to_openai (Config.ofEnv e t) m).length := by
  have hbig : ∀ s, (Config.ofEnv e t).big_model = some s → isBlank s = false := by
    intro s hs
    exact getEnvValue_not_blank e.big_model none (by intro u hu; cases hu) s hs
  have hmid : ∀ s, (Config.ofEnv e t).middle_model = some s → isBlank s = false := by
    intro s hs
    exact getEnvValue_not_blank e.middle_model (getEnvValue e.big_model none)
      (getEnvValue_not_blank e.big_model none (by intro u hu; cases hu)) s hs
  have hsml : ∀ s, (Config.ofEnv e t).small_model = some s → isBlank s = false := by
    intro s hs
    exact getEnvValue_not_blank e.small_model none (by intro u hu; cases hu) s hs
  by_cases hb : isBlank m = true
  · unfold map_claude_model_to_openai map_claude_model_to_openai_log
    simp only [hb, Bool.or_true, if_true]
    cases hcb : (Config.ofEnv e t).big_model with
    | none =>
      simp [pyOrStr, default_model]
      decide
    | some s =>
      have hs := hbig s hcb
      have hne := ne_empty_of_not_blank s hs
      simp [pyOrStr, hne]
      exact length_pos_of_not_blank s hs
  · have hb2 : isBlank m = false := by
      cases hx : isBlank m with
      | false => rfl
      | true => exact absurd hx hb
    have hmp := length_pos_of_not_blank m hb2
    have hne := beq_empty_false_of_not_blank m hb2
    by_cases hA : (startsWith m "gpt-" || startsWith m "o1-") = true
    · unfold map_claude_model_to_openai map_claude_model_to_openai_log
      simp [hne, hb2, hA, hmp]
    · by_cases hB : (startsWith m "ep-" || startsWith m "doubao-" ||
          startsWith m "deepseek-") = true
      · unfold map_claude_model_to_openai map_claude_model_to_openai_log
        simp [hne, hb2, hA, hB, hmp]
      · have hA2 : (startsWith m "gpt-" || startsWith m "o1-") = false := by
          cases hx : (startsWith m "gpt-" || startsWith m "o1-") with
          | false => rfl
          | true => exact absurd hx hA
        have hB2 : (startsWith m "ep-" || startsWith m "doubao-" ||
            startsWith m "deepseek-") = false := by
          cases hx : (startsWith m "ep-" || startsWith m "doubao-" ||
              startsWith m "deepseek-") with
          | false => rfl
          | true => exact absurd hx hB
        have hg : startsWith m "gpt-" = false := by
          cases hx : startsWith m "gpt-" with
          | false => rfl
          | true => rw [hx] at hA2; simp at hA2
        have ho1 : startsWith m "o1-" = false := by
          cases hx : startsWith m "o1-" with
          | false => rfl
          | true => rw [hx] at hA2; simp at hA2
        have hep : startsWith m "ep-" = false := by
          cases hx : startsWith m "ep-" with
          | false => rfl
          | true => rw [hx] at hB2; simp at hB2
        have hdb : startsWith m "doubao-" = false := by
          cases hx : startsWith m "doubao-" with
          | false => rfl
          | true => rw [hx] at hB2; simp at hB2
        have hds : startsWith m "deepseek-" = false := by
          cases hx : startsWith m "deepseek-" with
          | false => rfl
          | true => rw [hx] at hB2; simp at hB2
        have hml := map_log_nonblank (Config.ofEnv e t) m hb2 hg ho1 hep hdb hds
        unfold map_claude_model_to_openai
        rw [hml]
        by_cases hk : containsSub (pyLower m) "haiku" = true
        · simp only [hk, if_true]
          exact tierOrClient_length_pos _ m _ hb2 hsml
        · simp only [hk, if_false, Bool.not_eq_true] at hk ⊢
          simp only [hk, Bool.false_eq_true, if_false]
          by_cases hsn : containsSub (pyLower m) "sonnet" = true
          · simp only [hsn, if_true]
            exact tierOrClient_length_pos _ m _ hb2 hmid
          · have hsn2 : containsSub (pyLower m) "sonnet" = false := by
              cases hx : containsSub (pyLower m) "sonnet" with
              | false => rfl
              | true => exact absurd hx hsn
            simp only [hsn2, Bool.false_eq_true, if_false]
            by_cases hop : containsSub (pyLower m) "opus" = true
            · simp only [hop, if_true]
              exact tierOrClient_length_pos _ m _ hb2 hbig
            · have hop2 : containsSub (pyLower m) "opus" = false := by
                cases hx : containsSub (pyLower m) "opus" with
                | false => rfl
                | true => exact absurd hx hop
              simp only [hop2, Bool.false_eq_true, if_false]
              exact tierOrClient_length_pos _ m _ hb2 hbig

/-- C5 witness: an unconfigured environment still resolves claude-opus to a
non-empty name. -/
theorem c5_witness :
    0 < (map_claude_model_to_openai (Config.ofEnv envAllUnset 300) "claude-opus").length :=
  c5_resolve_total_nonempty envAllUnset 300 "claude-opus"

/-- C6. Client credential validation: with no shared secret configured, the
extracted key (possibly absent) is returned without error for every input;
with a truthy shared secret configured, a 401 HTTPException is raised if
and only if no key was extracted or the extracted key differs from the
secret, and a matching extracted key is returned. -/
theorem c6_client_key_validation (cfg : Config) (x_api_key authorization : Option String) :
    (pyTruthyOpt cfg.anthropic_api_key = false →
      validate_api_key cfg x_api_key authorization =
        .ok (extract_client_key x_api_key authorization)) ∧
    (∀ secret, cfg.anthropic_api_key = some secret → secret ≠ "" →
      ((∃ err, validate_api_key cfg x_api_key authorization = .error err ∧
          err.status = 401) ↔
        (extract_client_key x_api_key authorization = none ∨
          ∃ ck, extract_client_key x_api_key authorization = some ck ∧ ck ≠ secret)) ∧
      (extract_client_key x_api_key authorization = some secret →
        validate_api_key cfg x_api_key authorization = .ok (some secret))) := by
  constructor
  · intro h
    simp [validate_api_key, h]
  · intro secret hsec hne
    constructor
    · cases hk : extract_client_key x_api_key authorization with
      | none =>
        have hval : validate_api_key cfg x_api_key authorization = .error invalidKeyErr := by
          simp [validate_api_key, hk, hsec, pyTruthyOpt, hne]
        rw [hval]
        constructor
        · intro _
          exact Or.inl rfl
        · intro _
          exact ⟨invalidKeyErr, rfl, rfl⟩
      | some ck =>
        by_cases hck : ck = secret
        · subst hck
          have hval : validate_api_key cfg x_api_key authorization = .ok (some ck) := by
            simp [validate_api_key, hk, hsec, pyTruthyOpt, hne,
              Config.validate_client_api_key]
          rw [hval]
          constructor
          · intro h
            obtain ⟨err, heq, _⟩ := h
            exact absurd heq (by simp)
          · intro h
            rcases h with h | ⟨ck2, hc2, hne2⟩
            · exact absurd h (by simp)
            · have : ck2 = ck := by injection hc2 with hcc; exact hcc.symm
              exact absurd this.symm (fun hx => hne2 hx.symm)
        · have hbeq : (some ck == some secret) = false := by
            rw [beq_eq_false_iff_ne]
            simp [hck]
          have hval : validate_api_key cfg x_api_key authorization = .error invalidKeyErr := by
            by_cases hce : ck = ""
            · subst hce
              simp [validate_api_key, hk, hsec, pyTruthyOpt, hne]
            · simp [validate_api_key, hk, hsec, pyTruthyOpt, hne, hce,
                Config.validate_client_api_key, hbeq]
          rw [hval]
          constructor
          · intro _
            exact Or.inr ⟨ck, rfl, hck⟩
          · intro _
            exact ⟨invalidKeyErr, rfl, rfl⟩
    · intro hk
      simp [validate_api_key, hk, hsec, pyTruthyOpt, hne,
        Config.validate_client_api_key]

/-- C6 witness: a matching x-api-key against the configured shared secret is
accepted and returned. -/
theorem c6_witness :
    validate_api_key cfgSecret (some "secret-1") none = .ok (some "secret-1") :=
  ((c6_client_key_validation cfgSecret (some "secret-1") none).2 "secret-1" rfl
    (by decide)).2 (by decide)

/-- C10. When the x-api-key header is supplied (present with a non-empty
value, the truthiness test the code uses), it takes precedence and the
Authorization header is ignored; an Authorization header not starting with
Bearer-and-space yields no extracted key, so with a shared secret
configured the request is rejected with the 401 HTTPException, and without
one the handler receives no client key. -/
theorem c10_header_precedence (cfg : Config) (x_api_key authorization : Option String) :
    (pyTruthyOpt x_api_key = true →
      extract_client_key x_api_key authorization = x_api_key) ∧
    (∀ a, authorization = some a → startsWith a "Bearer " = false →
      pyTruthyOpt x_api_key = false →
      extract_client_key x_api_key authorization = none ∧
      (pyTruthyOpt cfg.anthropic_api_key = true →
        validate_api_key cfg x_api_key authorization = .error invalidKeyErr) ∧
      (pyTruthyOpt cfg.anthropic_api_key = false →
        validate_api_key cfg x_api_key authorization = .ok none)) := by
  constructor
  · intro h
    simp [extract_client_key, h]
  · intro a ha hbear hx
    have hext : extract_client_key x_api_key authorization = none := by
      simp [extract_client_key, hx, ha, hbear]
    refine ⟨hext, ?_, ?_⟩
    · intro htr
      have hnone : pyTruthyOpt none = false := rfl
      simp [validate_api_key, hext, htr, hnone]
    · intro hfa
      simp [validate_api_key, hext, hfa]

/-- C10 witness: with both headers supplied, the x-api-key value wins. -/
theorem c10_witness :
    extract_client_key (some "key-a") (some "Bearer zzz") = some "key-a" :=
  (c10_header_precedence cfgSecret (some "key-a") (some "Bearer zzz")).1 (by decide)

/-- C7. Upstream credential selection: an sk- prefixed client key yields a
fresh client built on that key; otherwise the shared default client is
returned when an upstream key is configured; with neither available,
get_openai_client raises the 401 HTTPException, and for any request whose
validation hands that client key to the handler, the whole pipeline
returns that 401 with the upstream-called flag still false, so the 4xx is
raised before any upstream call is attempted. -/
theorem c7_upstream_credential_selection (cfg : Config) (k : Option String) :
    (∀ s, k = some s → startsWith s "sk-" = true →
      get_openai_client cfg k =
        .ok ⟨some s, cfg.openai_base_url, cfg.request_timeout, cfg.azure_api_version⟩) ∧
    (skSelected k = false → pyTruthyOpt cfg.openai_api_key = true →
      get_openai_client cfg k = .ok (defaultClient cfg)) ∧
    (skSelected k = false → pyTruthyOpt cfg.openai_api_key = false →
      get_openai_client cfg k = .error noUpstreamKeyErr ∧
      ∀ (x_api_key authorization : Option String) (disconnected stream : Bool)
        (co : Collab),
        validate_api_key cfg x_api_key authorization = .ok k →
        create_message cfg x_api_key authorization disconnected stream co =
          (.error noUpstreamKeyErr, false)) := by
  refine ⟨?_, ?_, ?_⟩
  · intro s hk hsk
    subst hk
    have hb : isBlank s = false := not_blank_of_head s 's' ['k', '-'] (by decide) hsk
    have hne : pyTruthyStr s = true := by
      simp [pyTruthyStr, ne_empty_of_not_blank s hb]
    simp [get_openai_client, hne, hsk]
  · intro hsel htr
    cases k with
    | none => simp [get_openai_client, htr]
    | some s =>
      have hsel2 : (pyTruthyStr s && startsWith s "sk-") = false := by
        simpa [skSelected] using hsel
      simp [get_openai_client, hsel2, htr]
  · intro hsel hfa
    have hget : get_openai_client cfg k = .error noUpstreamKeyErr := by
      cases k with
      | none => simp [get_openai_client, hfa]
      | some s =>
        have hsel2 : (pyTruthyStr s && startsWith s "sk-") = false := by
          simpa [skSelected] using hsel
        simp [get_openai_client, hsel2, hfa]
    refine ⟨hget, ?_⟩
    intro x_api_key authorization disconnected stream co hval
    simp only [create_message, hval]
    simp only [create_message_body, hget]
    rfl

/-- C7 witness: with no client key and no configured upstream key, the
pipeline fails with the 401 and the upstream-called flag is false. -/
theorem c7_witness :
    create_message cfgNoUpstream none none false false coTriv =
      (.error noUpstreamKeyErr, false) :=
  ((c7_upstream_credential_selection cfgNoUpstream none).2.2 rfl rfl).2
    none none false false coTriv rfl

/-- C8. The outermost exception boundary of the /v1/messages handler: an
exception that is already an HTTPException propagates unchanged; any other
exception is logged and re-raised as a 500 HTTPException whose detail is
the classified message; a normal response passes through. -/
theorem c8_request_boundary (classify : String → String) (body : Except PyExc Response) :
    (∀ e, body = .error (.http e) →
      handle_request_boundary classify body = (.error e, [])) ∧
    (∀ m, body = .error (.other m) →
      handle_request_boundary classify body =
        (.error ⟨500, classify m⟩,
          [.error ("Unexpected error processing request: " ++ m)])) ∧
    (∀ r, body = .ok r → handle_request_boundary classify body = (.ok r, [])) := by
  refine ⟨?_, ?_, ?_⟩
  · intro e he
    rw [he]
    rfl
  · intro m hm
    rw [hm]
    rfl
  · intro r hr
    rw [hr]
    rfl

/-- C8 witness: a non-HTTP exception is re-raised as a 500 with the
classified message and a log record. -/
theorem c8_witness :
    handle_request_boundary (fun s => s) (.error (.other "boom")) =
      (.error ⟨500, "boom"⟩, [.error ("Unexpected error processing request: " ++ "boom")]) :=
  (c8_request_boundary (fun s => s) (.error (.other "boom"))).2.1 "boom" rfl

/-- The accumulation loop over blocks equals the plain sum of text lengths. -/
theorem blocksChars_eq_sum (bs : List ContentBlock) :
    blocksChars bs = (bs.map claimBlockChars).sum := by
  induction bs with
  | nil => rfl
  | cons b rest ih => cases b <;> simp [blocksChars, claimBlockChars, ih]

/-- The truthiness-guarded system contribution equals the plain one. -/
theorem systemChars_eq_claim (sys : Option (String ⊕ List ContentBlock)) :
    systemChars sys = claimSystemChars sys := by
  cases sys with
  | none => rfl
  | some sv =>
    cases sv with
    | inl s =>
      by_cases hs : s = ""
      · subst hs
        rfl
      · simp [systemChars, claimSystemChars, sysTruthy, hs]
    | inr bs =>
      cases bs with
      | nil => rfl
      | cons b rest =>
        simp [systemChars, claimSystemChars, sysTruthy, blocksChars_eq_sum]

/-- The per-message contribution equals the plain one. -/
theorem messageChars_eq_claim (m : CMessage) : messageChars m = claimMessageChars m := by
  obtain ⟨content⟩ := m
  cases content with
  | none => rfl
  | some cv =>
    cases cv with
    | inl s => rfl
    | inr bs => simp [messageChars, claimMessageChars, blocksChars_eq_sum]

/-- Folding additions of a projection over a list is the initial value plus
the sum of the projected values. -/
theorem foldl_add_sum (f : CMessage → Nat) (l : List CMessage) (init : Nat) :
    List.foldl (fun acc m => acc + f m) init l = init + (l.map f).sum := by
  induction l generalizing init with
  | nil => simp
  | cons a t ih => simp [List.foldl, ih, Nat.add_assoc]

/-- C9. For every token-count request, count_tokens returns input_tokens equal
to max(1, C / 4) where C is the total character count of the system prompt
(string form, or texts of text-bearing blocks of the list form) plus each
message content (string form, or texts of text-bearing blocks); absent
content and non-text blocks contribute zero, and the result is at least 1
even for a request with no text at all. -/
theorem c9_count_tokens_estimate (req : TokenCountRequest) :
    count_tokens_endpoint req = ⟨max 1 (claimTotalChars req / 4)⟩ ∧
    1 ≤ (count_tokens_endpoint req).input_tokens := by
  have htot : totalRequestChars req = claimTotalChars req := by
    unfold totalRequestChars claimTotalChars
    rw [foldl_add_sum messageChars req.messages (systemChars req.system)]
    rw [systemChars_eq_claim]
    have hmap : req.messages.map messageChars = req.messages.map claimMessageChars := by
      have : messageChars = claimMessageChars := funext messageChars_eq_claim
      rw [this]
    rw [hmap]
  constructor
  · unfold count_tokens_endpoint
    rw [htot]
  · unfold count_tokens_endpoint
    exact le_max_left 1 _

/-- C9 witness: a request with no text at all still reports one input token. -/
theorem c9_witness :
    count_tokens_endpoint ⟨none, []⟩ = ⟨max 1 (claimTotalChars ⟨none, []⟩ / 4)⟩ ∧
    1 ≤ (count_tokens_endpoint ⟨none, []⟩).input_tokens :=
  c9_count_tokens_estimate ⟨none, []⟩

end ClaudeProxy
